import Mathlib

/-
  Verification development for the Super Planner financial model
  (src/app.py).  The simulation engine, amortization helper, optimizer
  and scenario comparator are shallowly embedded over exact rational
  arithmetic (Python floats become ℚ; Python's total order of global
  reads is made explicit through the `Globals` record, which carries
  both the widget inputs and the derived values computed once at
  lines 91-94 of the source, exactly as the Python closure `run_sim`
  captures them).
-/

namespace SuperPlanner

/-- Source `pmt` (app.py lines 18-22): fixed monthly annuity payment.
    Division is rational division; the `rate = 0` case makes the
    denominator 0 (in Python a ZeroDivisionError, here the total
    division-by-zero convention). -/
def pmt (principal : ℚ) (rate : ℚ) (years : ℕ) : ℚ :=
  if principal ≤ 0 then 0
  else
    principal * (rate / 12) * (1 + rate / 12) ^ (years * 12) /
      ((1 + rate / 12) ^ (years * 12) - 1)

/-- The module-level state the simulation reads: widget inputs plus the
    derived values of app.py lines 91-94 (`dp_user`, `dp_dad`, `loan`,
    `m_payment`).  The derived fields are stored, not recomputed, because
    the Python closure `run_sim` captures them by name: mutating a widget
    variable afterwards (as the comparator does with `dad_amt`) does not
    refresh them. -/
structure Globals where
  home_price : ℚ
  your_down_pct : ℚ
  sell_odessa : Bool
  dad_amt : ℚ
  dad_use_etf : Bool
  rate : ℚ
  term : ℕ
  move_year : ℕ
  co_income : ℚ
  etf_ret : ℚ
  core_exp : ℚ
  utilities : ℚ
  subs : ℚ
  air_occ : ℚ
  main_rt : ℚ
  guest_rt : ℚ
  build_ter : Bool
  ter_occ : ℚ
  ter_rt : ℚ
  flip_year : Option ℕ
  dp_user : ℚ
  dp_dad : ℚ
  loan : ℚ
  m_payment : ℚ
deriving DecidableEq

/-- Lines 91-94 of app.py: compute the derived globals from the widget
    values.  `dp_dad` is the dad contribution only when it is routed to
    the down payment, otherwise 0. -/
def initGlobals (g : Globals) : Globals :=
  let dp_user := g.home_price * g.your_down_pct
  let dp_dad := if g.dad_use_etf then 0 else g.dad_amt
  let loan := g.home_price - (dp_user + dp_dad)
  let m_payment := pmt loan g.rate g.term * 12
  { g with dp_user := dp_user, dp_dad := dp_dad, loan := loan,
           m_payment := m_payment }

/-- One row of the result DataFrame produced per simulated year. -/
structure YearRow where
  year : ℕ
  income : ℚ
  expenses : ℚ
  surplus : ℚ
  etf : ℚ
deriving DecidableEq

/-- The mutable per-run state threaded through the year loop: the ETF
    balance, the pending one-time cash buffer, and the remaining
    Terlingua construction-loan balance. -/
@[ext]
structure SimState where
  etf : ℚ
  cash : ℚ
  terLoan : ℚ
deriving DecidableEq

/-- Line 113/115 of app.py: the second property earns rental income in a
    year iff no flip year is set or the year is before it. -/
def flipOpen : Option ℕ → ℕ → Bool
  | none, _ => true
  | some f, yr => yr < f

/-- Line 115 of app.py: `flip_year and yr == flip_year`; a flip year of 0
    would be falsy in Python, hence the `f ≠ 0` conjunct. -/
def flipHit : Option ℕ → ℕ → Bool
  | none, _ => false
  | some f, yr => f ≠ 0 && yr == f

/-- Line 104 of app.py: the fixed per-year construction-loan installment,
    `50_000 / 1.5` when the cabin is built. -/
def ter_pay (g : Globals) : ℚ := if g.build_ter then 50000 / (3 / 2) else 0

/-- The body of the `for yr in range(1, years+1)` loop of `run_sim`
    (app.py lines 105-130), producing the emitted row and the state
    carried into the next year.  `mv` and `occ` are the already-resolved
    override values; the `dp_pct` parameter of the source is resolved but
    never read by the loop body, so it does not appear here. -/
def yearStep (g : Globals) (mv : ℕ) (occ : ℚ) (yr : ℕ) (s : SimState) :
    YearRow × SimState :=
  let income :=
    if mv ≤ yr then g.co_income
    else 175000 + (if yr = 2 ∨ yr = 4 then (50000 : ℚ) else 0)
  let air :=
    (if mv ≤ yr then (g.main_rt + g.guest_rt) * 365 * occ * (8 / 10) else 0) +
    (if g.build_ter ∧ 2 ≤ yr ∧ flipOpen g.flip_year yr then
        g.ter_rt * 365 * g.ter_occ * (8 / 10) else 0)
  let cash1 := s.cash + (if g.build_ter ∧ flipHit g.flip_year yr then 120000 else 0)
  let total_income :=
    income + air + cash1 + (if g.dad_use_etf ∧ yr = 1 then g.dp_dad else 0)
  let exp0 := (g.core_exp + g.utilities + g.subs) * 12 + g.m_payment
  let pay := if 0 < s.terLoan then min (ter_pay g) s.terLoan else 0
  let exp := exp0 + pay
  let cash2 :=
    if g.sell_odessa ∧ yr = 6 then g.home_price - g.loan * (95 / 100) else 0
  let surplus := max 0 (total_income - exp)
  let invest := max 0 (surplus - (10 / 100) * total_income)
  let etf1 := s.etf * (1 + g.etf_ret) + invest
  (⟨yr, total_income, exp, surplus, etf1⟩,
   ⟨etf1, cash2, s.terLoan - pay⟩)

/-- The initial loop state of `run_sim`: `etf = cash = 0`, construction
    loan at its full 50 000 cost when the cabin is built (lines 100-103). -/
def initState (g : Globals) : SimState :=
  ⟨0, 0, if g.build_ter then 50000 else 0⟩

/-- The year loop itself: `k` remaining iterations starting at year `yr`
    with state `s`, returning the emitted rows in order. -/
def simLoop (g : Globals) (mv : ℕ) (occ : ℚ) : ℕ → ℕ → SimState → List YearRow
  | 0, _, _ => []
  | k + 1, yr, s =>
    let step := yearStep g mv occ yr s
    step.1 :: simLoop g mv occ k (yr + 1) step.2

/-- Source `run_sim(years=10, dp_pct=None, mv=None, occ=None)` (app.py
    lines 96-131).  `dp_pct` is resolved from the override exactly as in
    the source but is never used afterwards (the loan and payment were
    computed before the function was defined). -/
def run_sim (g : Globals) (years : ℕ) (dp_pct : Option ℚ) (mv : Option ℕ)
    (occ : Option ℚ) : List YearRow :=
  let _dp_pct := dp_pct.getD g.your_down_pct
  let mv := mv.getD g.move_year
  let occ := occ.getD g.air_occ
  simLoop g mv occ years 1 (initState g)

/-- The loop state after `k` completed years (same step function and
    initial state as `run_sim`). -/
def stateAfter (g : Globals) (mv : ℕ) (occ : ℚ) : ℕ → SimState
  | 0 => initState g
  | k + 1 => (yearStep g mv occ (k + 1) (stateAfter g mv occ k)).2

/-- The row emitted for year `k+1` (0-indexed position `k`). -/
def rowAt (g : Globals) (mv : ℕ) (occ : ℚ) (k : ℕ) : YearRow :=
  (yearStep g mv occ (k + 1) (stateAfter g mv occ k)).1

/-- The fixed part of a year's expenses (line 120 of app.py, the local
    `exp` before the construction-loan installment is added):
    `(core_exp + utilities + subs) * 12 + m_payment`. -/
def exp0 (g : Globals) : ℚ :=
  (g.core_exp + g.utilities + g.subs) * 12 + g.m_payment

/-- Terminal ETF balance of a projection, `df["ETF"].iloc[-1]`. -/
def lastETF (rows : List YearRow) : ℚ :=
  ((rows.getLast?).map YearRow.etf).getD 0

/-- Source comparator (app.py lines 150-156): it sets the module global
    `dad_amt` to 0, calls `run_sim()`, restores `dad_amt`, and calls
    `run_sim()` again; the resulting DataFrame pairs the two ETF columns
    by year.  The mutation of `dad_amt` is modelled by the record update;
    the derived globals (`dp_dad`, `loan`, `m_payment`) are NOT
    recomputed, exactly as in the source, where they were computed at
    lines 91-94 before the button handler runs. -/
def compare_df (g : Globals) : List YearRow × List YearRow :=
  let nohelp := run_sim { g with dad_amt := 0 } 10 none none none
  let withhelp := run_sim g 10 none none none
  (nohelp, withhelp)

/-- One optimizer trial's sampled overrides (app.py lines 141-143). -/
structure Draw where
  dp : ℚ
  mv : ℕ
  occ : ℚ
deriving DecidableEq

/-- The optimizer's best-so-far record (the Python dict
    `{"dp":…, "mv":…, "occ":…, "ETF":…}`). -/
structure Best where
  dp : ℚ
  mv : ℕ
  occ : ℚ
  etf : ℚ
deriving DecidableEq

/-- A trial's score (app.py line 144): the final-year ETF balance of a
    default-horizon run with the drawn overrides. -/
def trialNet (g : Globals) (d : Draw) : ℚ :=
  lastETF (run_sim g 10 (some d.dp) (some d.mv) (some d.occ))

/-- One optimizer iteration (app.py lines 144-146): replace the best
    record iff the trial's net is strictly greater.  The initial Python
    best is `{"ETF": -inf}`, which every finite net beats, modelled by
    `none`. -/
def optStep (g : Globals) (b : Option Best) (d : Draw) : Option Best :=
  let net := trialNet g d
  match b with
  | none => some ⟨d.dp, d.mv, d.occ, net⟩
  | some b0 => if b0.etf < net then some ⟨d.dp, d.mv, d.occ, net⟩ else some b0

/-- The optimizer loop (app.py lines 139-146) over an explicit sequence
    of random draws. -/
def optimize (g : Globals) (draws : List Draw) : Option Best :=
  draws.foldl (optStep g) none

/-- Concrete globals used by witness instantiations: no loan (price and
    down payment zero, so `pmt` returns 0), no cabin, no sale, move in
    year 5. -/
def gW : Globals :=
  { home_price := 0, your_down_pct := 0, sell_odessa := false,
    dad_amt := 0, dad_use_etf := false, rate := 0, term := 15,
    move_year := 5, co_income := 90000, etf_ret := 0, core_exp := 0,
    utilities := 0, subs := 0, air_occ := 1 / 2, main_rt := 0,
    guest_rt := 0, build_ter := false, ter_occ := 0, ter_rt := 0,
    flip_year := none, dp_user := 0, dp_dad := 0, loan := 0,
    m_payment := 0 }

/-- The single row produced by a 1-year run on `gW`. -/
def rowW : YearRow := ⟨1, 175000, 0, 175000, 157500⟩

/-- Widget inputs for the C1 evaluation: dad's 50 000 routed to the ETF,
    a 300 000 home with no down payment, 4% for 15 years, move in
    year 5, every other income/expense knob zeroed. -/
def wC1 : Globals :=
  { gW with home_price := 300000, rate := 1 / 25,
            dad_amt := 50000, dad_use_etf := true }

/-- The derived globals for `wC1` (lines 91-94 of the source applied). -/
def gC1 : Globals := initGlobals wC1

/-- Widget inputs for the C2 evaluation: dad's 100 000 routed to the
    down payment on a 300 000 home, 4% for 15 years. -/
def wC2 : Globals :=
  { gW with home_price := 300000, rate := 1 / 25, dad_amt := 100000,
            dad_use_etf := false }

/-- The derived globals for `wC2`. -/
def gC2 : Globals := initGlobals wC2

/-- A fresh engine environment for `wC2` with the contribution actually
    zeroed before the derived values are computed: what a genuine
    no-contribution run would use. -/
def gC2fresh : Globals := initGlobals { wC2 with dad_amt := 0 }

/-- Globals for the C3 evaluation: sell-in-year-6 flag set on a 300 000
    home financed at 4%/15y with no down payment. -/
def gC3 : Globals :=
  initGlobals { gW with home_price := 300000, rate := 1 / 25,
                        sell_odessa := true }

/-- Globals for the C10 witness: the cabin is built. -/
def gT : Globals := { gW with build_ter := true, flip_year := some 5 }

/-- A concrete in-range draw sequence of length 1000 for the C7
    witness. -/
def drawsW : List Draw := List.replicate 1000 ⟨1 / 20, 2, 45 / 100⟩

theorem simLoop_eq_map_rowAt (g : Globals) (mv : ℕ) (occ : ℚ) :
    ∀ (k j : ℕ), simLoop g mv occ k (j + 1) (stateAfter g mv occ j) =
      (List.range' j k).map (rowAt g mv occ) := by
  intro k
  induction k with
  | zero => intro j; simp [simLoop]
  | succ n ih =>
    intro j
    rw [List.range'_succ, List.map_cons]
    show (yearStep g mv occ (j + 1) (stateAfter g mv occ j)).1 ::
        simLoop g mv occ n (j + 1 + 1) (yearStep g mv occ (j + 1) (stateAfter g mv occ j)).2 = _
    rw [show (yearStep g mv occ (j + 1) (stateAfter g mv occ j)).2 =
        stateAfter g mv occ (j + 1) from rfl]
    rw [ih (j + 1)]
    rfl

theorem run_sim_eq_map_rowAt (g : Globals) (years : ℕ) (dp : Option ℚ)
    (mv : Option ℕ) (occ : Option ℚ) :
    run_sim g years dp mv occ =
      (List.range years).map (rowAt g (mv.getD g.move_year) (occ.getD g.air_occ)) := by
  have h := simLoop_eq_map_rowAt g (mv.getD g.move_year) (occ.getD g.air_occ) years 0
  simp only [stateAfter] at h
  rw [List.range_eq_range']
  exact h

theorem pmt_pos (P r : ℚ) (y : ℕ) (hP : 0 < P) (hr : 0 < r) (hy : 1 ≤ y) :
    0 < pmt P r y := by
  rw [pmt, if_neg (not_le.mpr hP)]
  have hr12 : 0 < r / 12 := by positivity
  have hn : y * 12 ≠ 0 := by omega
  have hpow : 1 < (1 + r / 12) ^ (y * 12) := one_lt_pow₀ (by linarith) hn
  have hnum : 0 < P * (r / 12) * (1 + r / 12) ^ (y * 12) := by
    have : (0 : ℚ) < (1 + r / 12) ^ (y * 12) := by linarith
    positivity
  exact div_pos hnum (by linarith)

theorem pmt_mul_left (c P r : ℚ) (y : ℕ) (hP : 0 < P) (hc : 0 < c) :
    pmt (c * P) r y = c * pmt P r y := by
  rw [pmt, pmt, if_neg (not_le.mpr hP), if_neg (not_le.mpr (by positivity))]
  ring

theorem yearStep_dad_amt (g : Globals) (a : ℚ) (m : ℕ) (o : ℚ) (yr : ℕ)
    (s : SimState) :
    yearStep { g with dad_amt := a } m o yr s = yearStep g m o yr s := rfl

theorem simLoop_dad_amt (g : Globals) (a : ℚ) (m : ℕ) (o : ℚ) :
    ∀ (k j : ℕ) (s : SimState),
      simLoop { g with dad_amt := a } m o k j s = simLoop g m o k j s := by
  intro k
  induction k with
  | zero => intro j s; rfl
  | succ n ih =>
    intro j s
    simp only [simLoop]
    rw [yearStep_dad_amt, ih]

theorem run_sim_dad_amt (g : Globals) (a : ℚ) (y : ℕ) (dp : Option ℚ)
    (mv : Option ℕ) (occ : Option ℚ) :
    run_sim { g with dad_amt := a } y dp mv occ = run_sim g y dp mv occ := by
  unfold run_sim
  exact simLoop_dad_amt g a _ _ y 1 (initState g)

theorem run_sim_head (g : Globals) (y : ℕ) (dp : Option ℚ) (mv : Option ℕ)
    (occ : Option ℚ) :
    (run_sim g (y + 1) dp mv occ).head? =
      some (rowAt g (mv.getD g.move_year) (occ.getD g.air_occ) 0) := by
  rw [run_sim_eq_map_rowAt]
  simp [List.range_succ_eq_map]

theorem rowAt_expenses (g : Globals) (m : ℕ) (o : ℚ) (k : ℕ) :
    (rowAt g m o k).expenses = exp0 g +
      (if 0 < (stateAfter g m o k).terLoan then
        min (ter_pay g) (stateAfter g m o k).terLoan else 0) := rfl

/-- C4: `pmt` returns 0 whenever the principal is ≤ 0; for positive
    principal it returns the annuity formula
    `P·r·(1+r)^n / ((1+r)^n − 1)` with `r = annualRate/12` and
    `n = termYears×12`; and the result is strictly positive for positive
    principal, positive rate and positive term. -/
theorem spC4_pmt_formula (P r : ℚ) (y : ℕ) :
    (P ≤ 0 → pmt P r y = 0) ∧
    (0 < P → pmt P r y =
      P * (r / 12) * (1 + r / 12) ^ (y * 12) /
        ((1 + r / 12) ^ (y * 12) - 1)) ∧
    (0 < P → 0 < r → 1 ≤ y → 0 < pmt P r y) := by
  exact ⟨fun hP => by simp [pmt, hP], fun hP => by
    simp [pmt, not_le.mpr hP], fun hP hr hy => pmt_pos P r y hP hr hy⟩

/-- Witness for C4 at concrete inputs: principal −1 gives 0; at
    principal 100, rate 12, term 1 the formula value is returned and is
    positive. -/
theorem spC4_pmt_formula_witness :
    pmt (-1) 1 30 = 0 ∧
    pmt 100 12 1 =
      100 * ((12 : ℚ) / 12) * (1 + (12 : ℚ) / 12) ^ (1 * 12) /
        ((1 + (12 : ℚ) / 12) ^ (1 * 12) - 1) ∧
    0 < pmt 100 12 1 :=
  ⟨(spC4_pmt_formula (-1) 1 30).1 (by norm_num),
   (spC4_pmt_formula 100 12 1).2.1 (by norm_num),
   (spC4_pmt_formula 100 12 1).2.2 (by norm_num) (by norm_num) (by norm_num)⟩

/-- C9: for positive rate and term ≥ 1 the annuity denominator
    `(1+rate/12)^(term×12) − 1` inside `pmt` is nonzero (so the division
    is exact: multiplying the result back by the denominator recovers the
    numerator), and at rate 0 the denominator is 0, so the
    division-by-zero case is reached exactly when the rate is zero. -/
theorem spC9_pmt_denominator (P r : ℚ) (y : ℕ) :
    (0 < r → 1 ≤ y →
      ((1 + r / 12) ^ (y * 12) - 1 ≠ 0 ∧
       (0 < P → pmt P r y * ((1 + r / 12) ^ (y * 12) - 1) =
          P * (r / 12) * (1 + r / 12) ^ (y * 12)))) ∧
    (r = 0 → (1 + r / 12) ^ (y * 12) - 1 = 0) := by
  constructor
  · intro hr hy
    have hn : y * 12 ≠ 0 := by omega
    have h12 : 0 < r / 12 := by positivity
    have hpow : 1 < (1 + r / 12) ^ (y * 12) := one_lt_pow₀ (by linarith) hn
    have hden : (1 + r / 12) ^ (y * 12) - 1 ≠ 0 := by
      intro h0; rw [sub_eq_zero] at h0; exact absurd h0.symm (ne_of_lt hpow)
    refine ⟨hden, fun hP => ?_⟩
    rw [pmt, if_neg (not_le.mpr hP), div_mul_cancel₀ _ hden]
  · intro h0; simp [h0]

/-- Witness for C9 at rate 12, term 1, principal 100 (nonzero
    denominator, exact division) and rate 0 (zero denominator). -/
theorem spC9_pmt_denominator_witness :
    ((1 + (12 : ℚ) / 12) ^ (1 * 12) - 1 ≠ 0 ∧
     (0 < (100 : ℚ) → pmt 100 12 1 * ((1 + (12 : ℚ) / 12) ^ (1 * 12) - 1) =
        100 * ((12 : ℚ) / 12) * (1 + (12 : ℚ) / 12) ^ (1 * 12))) ∧
    (1 + (0 : ℚ) / 12) ^ (1 * 12) - 1 = 0 :=
  ⟨(spC9_pmt_denominator 100 12 1).1 (by norm_num) (by norm_num),
   (spC9_pmt_denominator 100 0 1).2 rfl⟩

/-- C5: for every parameter set and horizon h ≥ 1, `run_sim` returns
    exactly h rows whose year indices are 1..h in increasing order. -/
theorem spC5_projection_shape (g : Globals) (h : ℕ) (dp : Option ℚ)
    (mv : Option ℕ) (occ : Option ℚ) (hh : 1 ≤ h) :
    (run_sim g h dp mv occ).length = h ∧
    (run_sim g h dp mv occ).map YearRow.year = List.range' 1 h := by
  rw [run_sim_eq_map_rowAt]
  refine ⟨by simp, ?_⟩
  rw [List.map_map]
  have hyear : YearRow.year ∘ rowAt g (mv.getD g.move_year) (occ.getD g.air_occ) =
      fun k => 1 + k := by
    funext k
    show k + 1 = 1 + k
    omega
  rw [hyear, ← List.range'_eq_map_range]

/-- Witness for C5: a 1-year run on `gW` has one row, year index 1. -/
theorem spC5_projection_shape_witness :
    (run_sim gW 1 none none none).length = 1 ∧
    (run_sim gW 1 none none none).map YearRow.year = List.range' 1 1 :=
  spC5_projection_shape gW 1 none none none (by norm_num)

/-- C6: every row of every projection has
    `surplus = max 0 (income − expenses)`, hence surplus ≥ 0. -/
theorem spC6_surplus_floor (g : Globals) (h : ℕ) (dp : Option ℚ)
    (mv : Option ℕ) (occ : Option ℚ) (row : YearRow)
    (hrow : row ∈ run_sim g h dp mv occ) :
    row.surplus = max 0 (row.income - row.expenses) ∧ 0 ≤ row.surplus := by
  rw [run_sim_eq_map_rowAt] at hrow
  obtain ⟨k, hk, rfl⟩ := List.mem_map.mp hrow
  refine ⟨rfl, ?_⟩
  exact le_max_left 0 _

theorem run_sim_gW_one : run_sim gW 1 none none none = [rowW] := by
  norm_num [run_sim, simLoop, yearStep, initState, gW, ter_pay, flipOpen,
    flipHit, rowW, max_def, min_def]

/-- Witness for C6: the concrete year-1 row of `gW` is in the 1-year run
    and satisfies the surplus floor. -/
theorem spC6_surplus_floor_witness :
    rowW ∈ run_sim gW 1 none none none ∧
    (rowW.surplus = max 0 (rowW.income - rowW.expenses) ∧ 0 ≤ rowW.surplus) :=
  ⟨by rw [run_sim_gW_one]; exact List.mem_singleton.mpr rfl,
   spC6_surplus_floor gW 1 none none none rowW
     (by rw [run_sim_gW_one]; exact List.mem_singleton.mpr rfl)⟩

/-- C1 evaluated at the failing input: with dad's 50 000 routed to the
    ETF (`wC1`), year-1 total income is 175 000 — the configured
    contribution is NOT added (the code adds `dp_dad`, and `dp_dad` is 0
    exactly when the destination is the ETF) — and the whole projection
    is identical to one whose configured contribution is 0. -/
theorem spC1_code_bug_eval :
    (run_sim gC1 10 none none none).head?.map YearRow.income = some 175000 ∧
    run_sim gC1 10 none none none =
      run_sim (initGlobals { wC1 with dad_amt := 0 }) 10 none none none := by
  constructor
  · rw [show (10 : ℕ) = 9 + 1 from rfl, run_sim_head]
    show some (rowAt gC1 (Option.getD none gC1.move_year)
        (Option.getD none gC1.air_occ) 0).income = some 175000
    norm_num [rowAt, yearStep, stateAfter, initState, gC1, wC1, gW,
      initGlobals, flipOpen, flipHit]
  · have h : initGlobals { wC1 with dad_amt := 0 } = { gC1 with dad_amt := 0 } := by
      simp [initGlobals, gC1, wC1, gW]
    rw [h]
    exact (run_sim_dad_amt gC1 0 10 none none none).symm

/-- C2 evaluated at the failing input: the comparator's no-contribution
    projection is literally its with-contribution projection (mutating
    `dad_amt` has no effect, because `run_sim` reads only the derived
    globals computed before the mutation), while a fresh engine run whose
    derived loan reflects a zero contribution differs already in year-1
    expenses (the loan is 100 000 larger without dad's down payment). -/
theorem spC2_code_bug_eval :
    (compare_df gC2).1 = (compare_df gC2).2 ∧
    (compare_df gC2).1.head?.map YearRow.expenses ≠
      (run_sim gC2fresh 10 none none none).head?.map YearRow.expenses := by
  have hcmp : (compare_df gC2).1 = run_sim gC2 10 none none none :=
    run_sim_dad_amt gC2 0 10 none none none
  constructor
  · exact hcmp
  · rw [hcmp]
    rw [show (10 : ℕ) = 9 + 1 from rfl, run_sim_head, run_sim_head]
    have h1 : (rowAt gC2 (Option.getD none gC2.move_year)
        (Option.getD none gC2.air_occ) 0).expenses = pmt 200000 (1 / 25) 15 * 12 := by
      rw [rowAt_expenses]
      norm_num [stateAfter, initState, exp0, gC2, wC2, gW, initGlobals]
    have h2 : (rowAt gC2fresh (Option.getD none gC2fresh.move_year)
        (Option.getD none gC2fresh.air_occ) 0).expenses =
        pmt 300000 (1 / 25) 15 * 12 := by
      rw [rowAt_expenses]
      norm_num [stateAfter, initState, exp0, gC2fresh, wC2, gW, initGlobals]
    simp only [Option.map_some']
    rw [h1, h2]
    intro hEq
    have hEq' : pmt 200000 (1 / 25) 15 = pmt 300000 (1 / 25) 15 := by
      have := Option.some.inj hEq
      linarith
    have h3 : pmt 300000 (1 / 25) 15 = (3 / 2) * pmt 200000 (1 / 25) 15 := by
      rw [show (300000 : ℚ) = (3 / 2) * 200000 by norm_num] at hEq' ⊢
      rw [pmt_mul_left (3 / 2) 200000 (1 / 25) 15 (by norm_num) (by norm_num)]
    have hpos : 0 < pmt 200000 (1 / 25) 15 :=
      pmt_pos 200000 (1 / 25) 15 (by norm_num) (by norm_num) (by norm_num)
    rw [h3] at hEq'
    linarith

/-- C8: for every parameter set with a positive contribution, the
    terminal ETF balance of the comparator's with-contribution projection
    is ≥ that of its no-contribution projection.  (It holds because the
    two projections are identical: `run_sim` never reads `dad_amt`.) -/
theorem spC8_compare_terminal (g : Globals) (hdad : 0 < g.dad_amt) :
    lastETF (compare_df g).1 ≤ lastETF (compare_df g).2 := by
  show lastETF (run_sim { g with dad_amt := 0 } 10 none none none) ≤
    lastETF (run_sim g 10 none none none)
  rw [run_sim_dad_amt]

/-- Witness for C8 at a concrete parameter set with contribution 1000. -/
theorem spC8_compare_terminal_witness :
    lastETF (compare_df { gW with dad_amt := 1000 }).1 ≤
      lastETF (compare_df { gW with dad_amt := 1000 }).2 :=
  spC8_compare_terminal { gW with dad_amt := 1000 } (by norm_num [gW])

theorem yearStep_terLoan (g : Globals) (m : ℕ) (o : ℚ) (yr : ℕ) (s : SimState) :
    (yearStep g m o yr s).2.terLoan =
      s.terLoan - (if 0 < s.terLoan then min (ter_pay g) s.terLoan else 0) := rfl

theorem ter_pay_built (g : Globals) (hb : g.build_ter = true) :
    ter_pay g = 100000 / 3 := by
  rw [ter_pay, if_pos hb]
  norm_num

theorem terLoan_closed (g : Globals) (m : ℕ) (o : ℚ) (hb : g.build_ter = true) :
    ∀ k, (stateAfter g m o k).terLoan =
      if k = 0 then 50000 else if k = 1 then 50000 / 3 else 0 := by
  intro k
  induction k with
  | zero => simp [stateAfter, initState, hb]
  | succ n ih =>
    simp only [stateAfter]
    rw [yearStep_terLoan, ih, ter_pay_built g hb]
    rcases n with _ | _ | n
    · norm_num [min_def]
    · norm_num [min_def]
    · norm_num

/-- C10: with the cabin built, the construction-loan balance stays ≥ 0
    after every simulated year; a year whose starting balance is 0 adds
    no repayment to expenses; the repayments are the 50000/1.5
    installment in year 1 and the remaining balance in year 2 (nothing
    afterwards); and over any horizon ≥ 2 the repayments included in
    expenses sum to exactly the 50 000 construction cost. -/
theorem spC10_ter_loan (g : Globals) (m : ℕ) (o : ℚ) (h : ℕ)
    (hb : g.build_ter = true) :
    (∀ k, 0 ≤ (stateAfter g m o k).terLoan) ∧
    (∀ k, (stateAfter g m o k).terLoan = 0 →
      (rowAt g m o k).expenses = exp0 g) ∧
    ((rowAt g m o 0).expenses = exp0 g + 50000 / (3 / 2) ∧
     (rowAt g m o 1).expenses = exp0 g + (50000 - 50000 / (3 / 2)) ∧
     (∀ k, 2 ≤ k → (rowAt g m o k).expenses = exp0 g)) ∧
    (2 ≤ h →
      ((run_sim g h none (some m) (some o)).map
          (fun r => r.expenses - exp0 g)).sum = 50000) := by
  have hclosed := terLoan_closed g m o hb
  have hexp : ∀ k, (rowAt g m o k).expenses - exp0 g =
      if k = 0 then 100000 / 3 else if k = 1 then 50000 / 3 else 0 := by
    intro k
    rw [rowAt_expenses, hclosed k, ter_pay_built g hb]
    rcases k with _ | _ | k
    · norm_num [min_def]
    · norm_num [min_def]
    · norm_num
  refine ⟨?_, ?_, ⟨?_, ?_, ?_⟩, ?_⟩
  · intro k
    rw [hclosed k]
    split_ifs <;> norm_num
  · intro k h0
    rw [rowAt_expenses, h0]
    norm_num
  · have := hexp 0
    norm_num at this ⊢
    linarith
  · have := hexp 1
    norm_num at this ⊢
    linarith
  · intro k hk
    have := hexp k
    rw [if_neg (by omega), if_neg (by omega)] at this
    linarith
  · intro hh
    rw [run_sim_eq_map_rowAt]
    simp only [Option.getD_some, List.map_map]
    have hfun : ((fun r => r.expenses - exp0 g) ∘ rowAt g m o) =
        fun k => if k = 0 then (100000 : ℚ) / 3 else if k = 1 then 50000 / 3 else 0 := by
      funext k
      exact hexp k
    rw [hfun]
    induction h with
    | zero => omega
    | succ n ih =>
      rcases Nat.lt_or_ge n 2 with hn | hn
      · interval_cases n
        · omega
        · simp [List.range_succ]
          norm_num
      · rw [List.range_succ, List.map_append, List.sum_append, ih (by omega)]
        simp only [List.map_cons, List.map_nil, List.sum_cons, List.sum_nil]
        rw [if_neg (by omega), if_neg (by omega)]
        norm_num

/-- Witness for C10 on the concrete built-cabin globals `gT`, horizon 2:
    the balance invariant and the exact 50 000 repayment total. -/
theorem spC10_ter_loan_witness :
    (∀ k, 0 ≤ (stateAfter gT 5 (1 / 2) k).terLoan) ∧
    ((run_sim gT 2 none (some 5) (some (1 / 2))).map
        (fun r => r.expenses - exp0 gT)).sum = 50000 :=
  ⟨(spC10_ter_loan gT 5 (1 / 2) 2 rfl).1,
   (spC10_ter_loan gT 5 (1 / 2) 2 rfl).2.2.2 (by norm_num)⟩

theorem yearStep_sell_ne6 (g : Globals) (b : Bool) (m : ℕ) (o : ℚ) (yr : ℕ)
    (s : SimState) (hyr : yr ≠ 6) :
    yearStep { g with sell_odessa := b } m o yr s = yearStep g m o yr s := by
  simp [yearStep, ter_pay, hyr]

theorem yearStep_sell_row (g : Globals) (b : Bool) (m : ℕ) (o : ℚ) (yr : ℕ)
    (s : SimState) :
    (yearStep { g with sell_odessa := b } m o yr s).1 =
      (yearStep g m o yr s).1 := rfl

theorem yearStep_cash (g : Globals) (m : ℕ) (o : ℚ) (yr : ℕ) (s : SimState) :
    (yearStep g m o yr s).2.cash =
      if g.sell_odessa ∧ yr = 6 then g.home_price - g.loan * (95 / 100)
      else 0 := rfl

theorem stateAfter_sell_le5 (g : Globals) (b : Bool) (m : ℕ) (o : ℚ) :
    ∀ k, k ≤ 5 → stateAfter { g with sell_odessa := b } m o k =
      stateAfter g m o k := by
  intro k
  induction k with
  | zero => intro _; rfl
  | succ n ih =>
    intro hk
    simp only [stateAfter]
    rw [ih (by omega), yearStep_sell_ne6 g b m o (n + 1) _ (by omega)]

theorem stateAfter_sell_six (g : Globals) (m : ℕ) (o : ℚ) :
    stateAfter { g with sell_odessa := true } m o 6 =
      ⟨(stateAfter { g with sell_odessa := false } m o 6).etf,
       (stateAfter { g with sell_odessa := false } m o 6).cash +
         (g.home_price - g.loan * (95 / 100)),
       (stateAfter { g with sell_odessa := false } m o 6).terLoan⟩ := by
  have h5 : stateAfter { g with sell_odessa := true } m o 5 =
      stateAfter { g with sell_odessa := false } m o 5 := by
    rw [stateAfter_sell_le5 g true m o 5 (le_refl 5),
        stateAfter_sell_le5 g false m o 5 (le_refl 5)]
  show (yearStep { g with sell_odessa := true } m o 6
      (stateAfter { g with sell_odessa := true } m o 5)).2 = _
  rw [h5]
  refine SimState.ext ?_ ?_ ?_
  · rfl
  · show g.home_price - g.loan * (95 / 100) =
      (yearStep { g with sell_odessa := false } m o 6
        (stateAfter { g with sell_odessa := false } m o 5)).2.cash +
        (g.home_price - g.loan * (95 / 100))
    rw [yearStep_cash]
    norm_num
  · rfl

theorem yearStep_income_cash (g : Globals) (m : ℕ) (o : ℚ) (yr : ℕ)
    (e c c' t : ℚ) :
    (yearStep g m o yr ⟨e, c', t⟩).1.income =
      (yearStep g m o yr ⟨e, c, t⟩).1.income + (c' - c) := by
  simp only [yearStep]
  ring

/-- C3 amended: if the sell-in-year-6 flag is set, the sale proceeds
    (home price − 95% of the original loan principal) are added to the
    pending inflow buffer during year 6 — but only after that year's
    income has been computed, so year 6's rows are unchanged by the flag
    and the proceeds are realized as part of year 7's total income, after
    which they are no longer pending (the buffer resets). -/
theorem spC3_amended (g : Globals) (dp : Option ℚ) (m : Option ℕ)
    (o : Option ℚ) :
    (run_sim { g with sell_odessa := true } 10 dp m o).take 6 =
      (run_sim { g with sell_odessa := false } 10 dp m o).take 6 ∧
    ((run_sim { g with sell_odessa := true } 10 dp m o).get? 6).map
        YearRow.income =
      ((run_sim { g with sell_odessa := false } 10 dp m o).get? 6).map
        (fun r => r.income + (g.home_price - g.loan * (95 / 100))) ∧
    (stateAfter { g with sell_odessa := true } (m.getD g.move_year)
        (o.getD g.air_occ) 7).cash =
      (stateAfter { g with sell_odessa := false } (m.getD g.move_year)
        (o.getD g.air_occ) 7).cash := by
  have hrow : ∀ k, k ≤ 5 →
      rowAt { g with sell_odessa := true } (m.getD g.move_year)
        (o.getD g.air_occ) k =
      rowAt { g with sell_odessa := false } (m.getD g.move_year)
        (o.getD g.air_occ) k := by
    intro k hk
    unfold rowAt
    rw [stateAfter_sell_le5 g true _ _ k hk,
        stateAfter_sell_le5 g false _ _ k hk,
        yearStep_sell_row g true, yearStep_sell_row g false]
  refine ⟨?_, ?_, ?_⟩
  · rw [run_sim_eq_map_rowAt, run_sim_eq_map_rowAt]
    rw [← List.map_take, ← List.map_take, List.take_range]
    refine List.map_congr_left ?_
    intro k hk
    have hk6 : k ≤ 5 := by
      have := List.mem_range.mp hk
      omega
    exact hrow k hk6
  · rw [run_sim_eq_map_rowAt, run_sim_eq_map_rowAt]
    rw [List.get?_map, List.get?_map, List.get?_range (by norm_num : 6 < 10)]
    simp only [Option.map_some']
    congr 1
    show (yearStep { g with sell_odessa := true } (m.getD g.move_year)
        (o.getD g.air_occ) 7
        (stateAfter { g with sell_odessa := true } (m.getD g.move_year)
          (o.getD g.air_occ) 6)).1.income = _
    rw [stateAfter_sell_six, yearStep_sell_row g true]
    rw [yearStep_income_cash g (m.getD g.move_year) (o.getD g.air_occ) 7
      (stateAfter { g with sell_odessa := false } (m.getD g.move_year)
        (o.getD g.air_occ) 6).etf
      (stateAfter { g with sell_odessa := false } (m.getD g.move_year)
        (o.getD g.air_occ) 6).cash _
      (stateAfter { g with sell_odessa := false } (m.getD g.move_year)
        (o.getD g.air_occ) 6).terLoan]
    rw [add_sub_cancel_left]
    rfl
  · show (yearStep { g with sell_odessa := true } _ _ 7 _).2.cash =
      (yearStep { g with sell_odessa := false } _ _ 7 _).2.cash
    rw [yearStep_cash, yearStep_cash]
    norm_num

/-- C3 counterexample: on the concrete parameter set `gC3` (sell flag
    set, 300 000 home, 4%/15-year loan of 300 000) the year-6 row of the
    projection equals the year-6 row obtained with the flag cleared, even
    though the sale proceeds 300 000 − 0.95 × 300 000 = 15 000 are
    nonzero: the proceeds are not realized in year 6's total income, so
    the claim as stated fails. -/
theorem spC3_counterexample :
    (run_sim gC3 10 none none none).get? 5 =
      (run_sim { gC3 with sell_odessa := false } 10 none none none).get? 5 ∧
    gC3.home_price - gC3.loan * (95 / 100) ≠ 0 := by
  constructor
  · rw [run_sim_eq_map_rowAt, run_sim_eq_map_rowAt]
    rw [List.get?_map, List.get?_map, List.get?_range (by norm_num : 5 < 10)]
    simp only [Option.map_some']
    congr 1
  · norm_num [gC3, gW, initGlobals]

theorem optimize_foldl_spec (g : Globals) :
    ∀ (l : List Draw) (b0 : Best),
      ∃ b : Best, l.foldl (optStep g) (some b0) = some b ∧
        ((b = b0 ∧ ∀ d ∈ l, trialNet g d ≤ b0.etf) ∨
         (∃ l1 w l2, l = l1 ++ w :: l2 ∧
            b = ⟨w.dp, w.mv, w.occ, trialNet g w⟩ ∧
            b0.etf < b.etf ∧
            (∀ d ∈ l1, trialNet g d < b.etf) ∧
            (∀ d ∈ l, trialNet g d ≤ b.etf))) := by
  intro l
  induction l with
  | nil => intro b0; exact ⟨b0, rfl, Or.inl ⟨rfl, by simp⟩⟩
  | cons d t ih =>
    intro b0
    by_cases hcmp : b0.etf < trialNet g d
    · have hfold : (d :: t).foldl (optStep g) (some b0) =
          t.foldl (optStep g) (some ⟨d.dp, d.mv, d.occ, trialNet g d⟩) := by
        simp [optStep, hcmp]
      obtain ⟨b, hb, hcases⟩ := ih ⟨d.dp, d.mv, d.occ, trialNet g d⟩
      refine ⟨b, hfold.trans hb, Or.inr ?_⟩
      rcases hcases with ⟨rfl, hall⟩ | ⟨l1, w, l2, hdec, hbw, hlt1, htake, hle⟩
      · refine ⟨[], d, t, by simp, rfl, hcmp, by simp, ?_⟩
        intro d' hd'
        rcases List.mem_cons.mp hd' with rfl | hmem
        · exact le_refl _
        · exact hall d' hmem
      · refine ⟨d :: l1, w, l2, by rw [hdec]; rfl, hbw, ?_, ?_, ?_⟩
        · exact lt_trans hcmp hlt1
        · intro d' hd'
          rcases List.mem_cons.mp hd' with rfl | hmem
          · exact hlt1
          · exact htake d' hmem
        · intro d' hd'
          rcases List.mem_cons.mp hd' with rfl | hmem
          · exact le_of_lt hlt1
          · exact hle d' hmem
    · have hfold : (d :: t).foldl (optStep g) (some b0) =
          t.foldl (optStep g) (some b0) := by
        simp [optStep, hcmp]
      obtain ⟨b, hb, hcases⟩ := ih b0
      refine ⟨b, hfold.trans hb, ?_⟩
      rcases hcases with ⟨rfl, hall⟩ | ⟨l1, w, l2, hdec, hbw, hlt1, htake, hle⟩
      · refine Or.inl ⟨rfl, ?_⟩
        intro d' hd'
        rcases List.mem_cons.mp hd' with rfl | hmem
        · exact le_of_not_lt hcmp
        · exact hall d' hmem
      · refine Or.inr ⟨d :: l1, w, l2, by rw [hdec]; rfl, hbw, hlt1, ?_, ?_⟩
        · intro d' hd'
          rcases List.mem_cons.mp hd' with rfl | hmem
          · exact lt_of_le_of_lt (le_of_not_lt hcmp) hlt1
          · exact htake d' hmem
        · intro d' hd'
          rcases List.mem_cons.mp hd' with rfl | hmem
          · exact le_of_lt (lt_of_le_of_lt (le_of_not_lt hcmp) hlt1)
          · exact hle d' hmem

/-- C7: over any sequence of exactly 1000 draws whose components lie in
    the sampled ranges (down payment in {5%, 10%, 20%}, move year in
    [2, 8), occupancy in [45%, 80%)), `optimize` returns a best record
    whose down payment is one of {0.05, 0.10, 0.20}, whose move year is
    in {2,…,7}, whose occupancy is in [0.45, 0.80), whose reported ETF is
    the maximum trial score, and which comes from the first trial
    attaining that maximum (every strictly earlier trial scores strictly
    less). -/
theorem spC7_optimize (g : Globals) (draws : List Draw)
    (hlen : draws.length = 1000)
    (hdp : ∀ d ∈ draws, d.dp = 5 / 100 ∨ d.dp = 10 / 100 ∨ d.dp = 20 / 100)
    (hmv : ∀ d ∈ draws, 2 ≤ d.mv ∧ d.mv < 8)
    (hocc : ∀ d ∈ draws, 45 / 100 ≤ d.occ ∧ d.occ < 80 / 100) :
    ∃ b : Best, optimize g draws = some b ∧
      (b.dp = 5 / 100 ∨ b.dp = 10 / 100 ∨ b.dp = 20 / 100) ∧
      (2 ≤ b.mv ∧ b.mv ≤ 7) ∧
      (45 / 100 ≤ b.occ ∧ b.occ < 80 / 100) ∧
      (∀ d ∈ draws, trialNet g d ≤ b.etf) ∧
      (∃ l1 w l2, draws = l1 ++ w :: l2 ∧
        b = ⟨w.dp, w.mv, w.occ, trialNet g w⟩ ∧
        ∀ d ∈ l1, trialNet g d < b.etf) := by
  cases draws with
  | nil => simp at hlen
  | cons d t =>
    obtain ⟨b, hb, hcases⟩ :=
      optimize_foldl_spec g t ⟨d.dp, d.mv, d.occ, trialNet g d⟩
    have hopt : optimize g (d :: t) = some b := hb
    rcases hcases with ⟨rfl, hall⟩ | ⟨l1, w, l2, hdec, hbw, hlt1, htake, hle⟩
    · refine ⟨_, hopt, hdp d (by simp), ?_, hocc d (by simp), ?_, [], d, t,
        rfl, rfl, by simp⟩
      · have h := hmv d (by simp)
        show 2 ≤ d.mv ∧ d.mv ≤ 7
        omega
      · intro d' hd'
        rcases List.mem_cons.mp hd' with rfl | hmem
        · exact le_refl _
        · exact hall d' hmem
    · have hwmem : w ∈ d :: t := by
        rw [hdec]
        exact List.mem_cons_of_mem d
          (List.mem_append_right _ (List.mem_cons_self w l2))
      refine ⟨b, hopt, ?_, ?_, ?_, ?_, d :: l1, w, l2, by rw [hdec]; rfl,
        hbw, ?_⟩
      · have := hdp w hwmem
        rw [hbw]
        exact this
      · have h := hmv w hwmem
        rw [hbw]
        show 2 ≤ w.mv ∧ w.mv ≤ 7
        omega
      · have := hocc w hwmem
        rw [hbw]
        exact this
      · intro d' hd'
        rcases List.mem_cons.mp hd' with rfl | hmem
        · exact le_of_lt hlt1
        · exact hle d' hmem
      · intro d' hd'
        rcases List.mem_cons.mp hd' with rfl | hmem
        · exact hlt1
        · exact htake d' hmem

/-- Witness for C7: a concrete in-range sequence of 1000 draws. -/
theorem spC7_optimize_witness :
    ∃ b : Best, optimize gW drawsW = some b ∧
      (b.dp = 5 / 100 ∨ b.dp = 10 / 100 ∨ b.dp = 20 / 100) ∧
      (2 ≤ b.mv ∧ b.mv ≤ 7) ∧
      (45 / 100 ≤ b.occ ∧ b.occ < 80 / 100) ∧
      (∀ d ∈ drawsW, trialNet gW d ≤ b.etf) ∧
      (∃ l1 w l2, drawsW = l1 ++ w :: l2 ∧
        b = ⟨w.dp, w.mv, w.occ, trialNet gW w⟩ ∧
        ∀ d ∈ l1, trialNet gW d < b.etf) :=
  spC7_optimize gW drawsW (by rw [drawsW, List.length_replicate])
    (by intro d hd; rw [List.eq_of_mem_replicate hd]; norm_num)
    (by
      intro d hd
      rw [List.eq_of_mem_replicate hd]
      exact ⟨by norm_num, by norm_num⟩)
    (by intro d hd; rw [List.eq_of_mem_replicate hd]; norm_num)

end SuperPlanner
